import Mathlib

/-!
Shallow embedding of the RaspberryPiCar control plane:
the 16-byte gamepad control-frame codec (`src/pi/gamepad_listener.py`,
`parse_gamepad_data`), the throttle safety interlock and pulse mapper
(`src/pi/throttle_control.py`), the steering angle mapper
(`src/pi/steering_control.py`), the combined vehicle controller
(`src/pi/vehicle_control.py`, `apply_control` / `stop`), and the
signaling listener's disconnect / offer handlers
(`src/pi/gamepad_listener.py`).

Python floats are modelled by exact rationals (ℚ); Python `int()`
truncation toward zero is `pyTrunc`; Python `round(x, 3)` is `pyRound3`
(round to nearest thousandth; on the values reachable from 16-bit raw
fields divided by 32767 no exact tie ever occurs, so the tie-breaking
convention is irrelevant). Hardware writes are modelled as emitted
`HwCommand` values (the hardware-available code path).
-/

namespace RaspberryPiCar

/-- A byte of the wire format. A Python `bytes` element is always in
`0..255`; the embedding uses `Nat` (claims quantified over all byte
sequences are proved over the superset of all `Nat` sequences, and
every concrete input below uses genuine byte values). -/
abbrev Byte := Nat

/-- Big-endian 16-bit unsigned assembly of two bytes. -/
def be16 (b0 b1 : Byte) : Nat := b0 * 256 + b1

/-- Big-endian 32-bit unsigned assembly of four bytes. -/
def be32 (b0 b1 b2 b3 : Byte) : Nat :=
  ((b0 * 256 + b1) * 256 + b2) * 256 + b3

/-- Reinterpretation of a 16-bit unsigned value as a signed (two's
complement) value, as `struct.unpack` with format `h` does. -/
def toSigned16 (n : Nat) : Int := if n < 32768 then (n : Int) else (n : Int) - 65536

/-- Floor of a rational, computed on the `num`/`den` representation
(`Int.ediv` with a positive denominator is the floor). -/
def ratFloor (q : ℚ) : ℤ := q.num / (q.den : ℤ)

/-- Python `int()` applied to a rational: truncation toward zero. -/
def pyTrunc (q : ℚ) : ℤ := if q < 0 then -(ratFloor (-q)) else ratFloor q

/-- Python `round(x, 3)`: round to the nearest multiple of 1/1000
(round half up). The decoder only feeds it values `raw/32767` with
`raw` a signed 16-bit integer, for which an exact tie is impossible,
so this agrees with Python's round-half-even there. -/
def pyRound3 (q : ℚ) : ℚ := ((ratFloor (q * 1000 + 1/2) : ℤ) : ℚ) / 1000

/-- Button list built by `parse_gamepad_data`: indices `0..15` whose bit
is set in the 16-bit `buttons` field, in ascending order (the Python
loop `for i in range(16)`). -/
def buttonList (buttons : Nat) : List Nat :=
  (List.range 16).filter (fun i => Nat.testBit buttons i)

/-- The decoded control frame (the dict returned by
`parse_gamepad_data` in the non-error case). -/
structure ControlFrame where
  sequence : Nat
  timestamp_ms : Nat
  throttle : ℚ
  steering : ℚ
  buttons : List Nat
  flags : Nat
  reserved : Nat
deriving Repr, DecidableEq

/-- Decode failure: either the length check (`len(data) != 16`) or the
`struct.error` branch of the `try` block. -/
inductive DecodeError where
  | badLength : Nat → DecodeError
  | parseFail : DecodeError
deriving Repr, DecidableEq

/-- Embedding of `struct.unpack('>IIhhHBB', data)`: succeeds exactly
when the buffer has the format's size (16 bytes), which is the only
condition under which `struct.error` is raised. -/
def unpack16 (data : List Byte) :
    Option (Nat × Nat × Int × Int × Nat × Nat × Nat) :=
  match data with
  | [a0, a1, a2, a3, b0, b1, b2, b3, t0, t1, s0, s1, u0, u1, f, r] =>
      some (be32 a0 a1 a2 a3, be32 b0 b1 b2 b3,
            toSigned16 (be16 t0 t1), toSigned16 (be16 s0 s1),
            be16 u0 u1, f, r)
  | _ => none

/-- Embedding of `GamepadListener.parse_gamepad_data`: length check, big-endian
unpack, normalization by 32767 with rounding to 3 decimals, and button
bit extraction. -/
def parse_gamepad_data (data : List Byte) : Except DecodeError ControlFrame :=
  if data.length ≠ 16 then .error (.badLength data.length)
  else
    match unpack16 data with
    | none => .error .parseFail
    | some (seq, ts_ms, throttle_int, steering_int, buttons, flags, reserved) =>
        .ok { sequence := seq
              timestamp_ms := ts_ms
              throttle := pyRound3 ((throttle_int : ℚ) / 32767)
              steering := pyRound3 ((steering_int : ℚ) / 32767)
              buttons := buttonList buttons
              flags := flags
              reserved := reserved }

/-- A write to the actuator hardware (pigpio servo pulse for the ESC,
ServoKit angle for the steering servo). -/
inductive HwCommand where
  | setThrottlePulse : ℤ → HwCommand
  | setSteeringAngle : ℤ → HwCommand
deriving Repr, DecidableEq

/-- Mutable fields of `ThrottleController`. -/
structure ThrottleState where
  current_throttle : ℚ
  throttle_lock : Bool
  emergency_brake : Bool
  power_lock_enabled : Bool
  power_lock_percent : ℚ
deriving Repr, DecidableEq

/-- Field values set by `ThrottleController.__init__`. -/
def throttleInit : ThrottleState :=
  { current_throttle := 0
    throttle_lock := false
    emergency_brake := false
    power_lock_enabled := true
    power_lock_percent := 25 }

/-- ESC pulse constants from `ThrottleController`. -/
def MIN_US : ℤ := 1000

def NEUTRAL : ℤ := 1500

def MAX_US : ℤ := 2000

def DB_LOW : ℤ := 1485

def DB_HIGH : ℤ := 1515

/-- Embedding of `ThrottleController.map_throttle_to_pulse`. -/
def map_throttle_to_pulse (s : ThrottleState) (throttle_value : ℚ) : ℤ :=
  if s.emergency_brake || !s.throttle_lock then NEUTRAL
  else
    let tv : ℚ :=
      if s.power_lock_enabled then throttle_value * (s.power_lock_percent / 100)
      else throttle_value
    if |tv| < 5/100 then NEUTRAL
    else if tv < 0 then
      let lo : ℚ := (DB_HIGH : ℚ) + 5
      let hi : ℚ := (MAX_US : ℚ)
      let pct : ℚ := min 1 |tv|
      pyTrunc (lo + (hi - lo) * pct)
    else
      let hi : ℚ := (DB_LOW : ℚ) - 5
      let lo : ℚ := (MIN_US : ℚ)
      let pct : ℚ := min 1 tv
      pyTrunc (hi - (hi - lo) * pct)

/-- Embedding of `ThrottleController.stop_vehicle`: zero the stored throttle and
command the neutral pulse. -/
def stop_vehicle (s : ThrottleState) : ThrottleState × List HwCommand :=
  ({ s with current_throttle := 0 }, [HwCommand.setThrottlePulse NEUTRAL])

/-- Embedding of `ThrottleController.update_throttle_lock`: record the deadman
state; on release, stop immediately unless the emergency brake already
stopped the vehicle. -/
def update_throttle_lock (s : ThrottleState) (locked : Bool) :
    ThrottleState × List HwCommand :=
  let s1 := { s with throttle_lock := locked }
  if !locked && !s1.emergency_brake then stop_vehicle s1 else (s1, [])

/-- Embedding of `ThrottleController.update_emergency_brake`: record the brake
state; when active, stop immediately. -/
def update_emergency_brake (s : ThrottleState) (active : Bool) :
    ThrottleState × List HwCommand :=
  let s1 := { s with emergency_brake := active }
  if active then stop_vehicle s1 else (s1, [])

/-- Embedding of `ThrottleController.update_power_lock` (no hardware write). -/
def update_power_lock (s : ThrottleState) (enabled : Bool) (power_percent : ℚ) :
    ThrottleState :=
  { s with power_lock_enabled := enabled, power_lock_percent := power_percent }

/-- Embedding of `ThrottleController.update_throttle` (no hardware write). -/
def update_throttle (s : ThrottleState) (v : ℚ) : ThrottleState :=
  { s with current_throttle := v }

/-- Embedding of `ThrottleController.apply_throttle`: map the stored throttle and
write the pulse. -/
def apply_throttle (s : ThrottleState) : ThrottleState × List HwCommand :=
  (s, [HwCommand.setThrottlePulse (map_throttle_to_pulse s s.current_throttle)])

/-- Safe-range constants from `SteeringController`. -/
def SERVO_SAFE_MIN_PERCENT : ℚ := 10

def SERVO_SAFE_MAX_PERCENT : ℚ := 90

/-- Embedding of `SteeringController.map_steering_to_angle`. -/
def map_steering_to_angle (steering_value : ℚ) : ℤ :=
  if |steering_value| < 5/100 then 90
  else
    let user_percent : ℚ := (1 - steering_value) * 50
    let safe_percent : ℚ := SERVO_SAFE_MIN_PERCENT +
      (user_percent / 100) * (SERVO_SAFE_MAX_PERCENT - SERVO_SAFE_MIN_PERCENT)
    let angle := pyTrunc (safe_percent * (18/10))
    max 0 (min 180 angle)

/-- Mutable fields of `SteeringController`. -/
structure SteeringState where
  current_steering : ℚ
deriving Repr, DecidableEq

/-- Field values set by `SteeringController.__init__`. -/
def steeringInit : SteeringState := { current_steering := 0 }

/-- Embedding of `SteeringController.update_steering` (no hardware write). -/
def update_steering (_s : SteeringState) (v : ℚ) : SteeringState :=
  { current_steering := v }

/-- Embedding of `SteeringController.apply_steering`: map the stored steering and
write the angle. -/
def apply_steering (s : SteeringState) : SteeringState × List HwCommand :=
  (s, [HwCommand.setSteeringAngle (map_steering_to_angle s.current_steering)])

/-- Embedding of `SteeringController.center_steering`: command 90 degrees; the
stored steering value is not changed. -/
def center_steering (s : SteeringState) : SteeringState × List HwCommand :=
  (s, [HwCommand.setSteeringAngle 90])

/-- Combined state of `VehicleController`. -/
structure VehicleState where
  throttle : ThrottleState
  steering : SteeringState
deriving Repr, DecidableEq

/-- Field values set by `VehicleController.__init__`. -/
def vehicleInit : VehicleState := ⟨throttleInit, steeringInit⟩

/-- Embedding of `VehicleController.apply_control`: drop error frames; otherwise
update the deadman lock from button 0, the emergency brake from
button 1, the power lock from button 2, then the continuous values,
then write both actuators. -/
def apply_control (vs : VehicleState) (fr : Except DecodeError ControlFrame) :
    VehicleState × List HwCommand :=
  match fr with
  | .error _ => (vs, [])
  | .ok frame =>
      let deadman_held := frame.buttons.contains 0
      let emergency_active := frame.buttons.contains 1
      let power_limit_toggle := frame.buttons.contains 2
      let r1 := update_throttle_lock vs.throttle deadman_held
      let r2 := update_emergency_brake r1.1 emergency_active
      let t3 := if power_limit_toggle
                then update_power_lock r2.1 true r2.1.power_lock_percent
                else r2.1
      let t4 := update_throttle t3 frame.throttle
      let s1 := update_steering vs.steering frame.steering
      let r5 := apply_throttle t4
      let r6 := apply_steering s1
      (⟨r5.1, r6.1⟩, r1.2 ++ r2.2 ++ r5.2 ++ r6.2)

/-- Embedding of `VehicleController.stop`: stop the throttle, then center the
steering. -/
def vehicle_stop (vs : VehicleState) : VehicleState × List HwCommand :=
  let r1 := stop_vehicle vs.throttle
  let r2 := center_steering vs.steering
  (⟨r1.1, r2.1⟩, r1.2 ++ r2.2)

/-- An ICE candidate payload as queued in `GamepadListener.pending_ice`. -/
structure IceData where
  candidate : String
  sdpMid : String
  sdpMLineIndex : Nat
deriving Repr, DecidableEq

/-- A live `RTCPeerConnection` as tracked by the listener: which remote
controller it was created for, and whether `close()` has been called
on it. -/
structure PeerConnection where
  peer_id : String
  closed : Bool
deriving Repr, DecidableEq

/-- Mutable fields of `GamepadListener` that the session-lifecycle
handlers touch. -/
structure ListenerState where
  connected : Bool
  pc : Option PeerConnection
  data_channel : Option String
  pending_ice : List IceData
  controller_id : Option String
deriving Repr, DecidableEq

/-- Externally observable actions of the listener handlers.
`stopVehicle` stands for a Mapper `stop()` (neutral throttle plus
centered steering); no handler in `gamepad_listener.py` ever performs
one — the listener only logs decoded frames — and the constructor
exists so that its absence is statable. -/
inductive ListenerEffect where
  | closePeer : String → ListenerEffect
  | emitAnswer : String → ListenerEffect
  | applyIce : IceData → ListenerEffect
  | stopVehicle : ListenerEffect
deriving Repr, DecidableEq

/-- The `disconnect` handler registered in
`GamepadListener.setup_handlers`: mark disconnected; if a peer
connection exists, close it, drop it together with the data channel,
and clear the pending ICE queue. -/
def on_disconnect (s : ListenerState) : ListenerState × List ListenerEffect :=
  match s.pc with
  | some pc =>
      ({ connected := false, pc := none, data_channel := none,
         pending_ice := [], controller_id := s.controller_id },
       [ListenerEffect.closePeer pc.peer_id])
  | none => ({ s with connected := false }, [])

/-- Embedding of `GamepadListener.handle_gamepad_offer`: overwrite `self.pc` with a
fresh connection (the previous connection, if any, is not closed),
record the controller id, set the remote description, apply and clear
any queued ICE candidates, and send the answer back. -/
def handle_gamepad_offer (s : ListenerState) (from_user : String) :
    ListenerState × List ListenerEffect :=
  ({ connected := s.connected, pc := some ⟨from_user, false⟩,
     data_channel := s.data_channel, pending_ice := [],
     controller_id := some from_user },
   s.pending_ice.map ListenerEffect.applyIce ++ [ListenerEffect.emitAnswer from_user])

/-! Helper lemmas shared by the claim theorems. -/

lemma ratFloor_eq_floor (q : ℚ) : ratFloor q = ⌊q⌋ := Rat.floor_def.symm

lemma pyTrunc_bounds {q : ℚ} {a b : ℤ} (h0 : 0 ≤ a) (ha : (a : ℚ) ≤ q)
    (hb : q ≤ (b : ℚ)) : a ≤ pyTrunc q ∧ pyTrunc q ≤ b := by
  have hq : ¬ q < 0 := not_lt.mpr (le_trans (by exact_mod_cast h0) ha)
  rw [pyTrunc, if_neg hq, ratFloor_eq_floor]
  refine ⟨Int.le_floor.mpr ha, ?_⟩
  calc ⌊q⌋ ≤ ⌊(b : ℚ)⌋ := Int.floor_le_floor hb
    _ = b := Int.floor_intCast b

@[simp] lemma stop_vehicle_lock (s : ThrottleState) :
    ((stop_vehicle s).1).throttle_lock = s.throttle_lock := rfl

@[simp] lemma stop_vehicle_brake (s : ThrottleState) :
    ((stop_vehicle s).1).emergency_brake = s.emergency_brake := rfl

@[simp] lemma update_throttle_lock_lock (s : ThrottleState) (l : Bool) :
    ((update_throttle_lock s l).1).throttle_lock = l := by
  rw [update_throttle_lock]; split <;> rfl

@[simp] lemma update_throttle_lock_brake (s : ThrottleState) (l : Bool) :
    ((update_throttle_lock s l).1).emergency_brake = s.emergency_brake := by
  rw [update_throttle_lock]; split <;> rfl

@[simp] lemma update_emergency_brake_brake (s : ThrottleState) (a : Bool) :
    ((update_emergency_brake s a).1).emergency_brake = a := by
  rw [update_emergency_brake]; split <;> rfl

@[simp] lemma update_emergency_brake_lock (s : ThrottleState) (a : Bool) :
    ((update_emergency_brake s a).1).throttle_lock = s.throttle_lock := by
  rw [update_emergency_brake]; split <;> rfl

@[simp] lemma update_power_lock_lock (s : ThrottleState) (e : Bool) (p : ℚ) :
    (update_power_lock s e p).throttle_lock = s.throttle_lock := rfl

@[simp] lemma update_power_lock_brake (s : ThrottleState) (e : Bool) (p : ℚ) :
    (update_power_lock s e p).emergency_brake = s.emergency_brake := rfl

@[simp] lemma update_throttle_lock' (s : ThrottleState) (v : ℚ) :
    (update_throttle s v).throttle_lock = s.throttle_lock := rfl

@[simp] lemma update_throttle_brake (s : ThrottleState) (v : ℚ) :
    (update_throttle s v).emergency_brake = s.emergency_brake := rfl

lemma map_throttle_neutral {s : ThrottleState} (v : ℚ)
    (h : s.emergency_brake = true ∨ s.throttle_lock = false) :
    map_throttle_to_pulse s v = NEUTRAL := by
  rcases h with h | h <;> simp [map_throttle_to_pulse, h]

/-- The decoder on an arbitrary explicit 16-byte list, field by field. -/
lemma parse_cons16 (b0 b1 b2 b3 b4 b5 b6 b7 b8 b9 b10 b11 b12 b13 b14 b15 : Byte) :
    parse_gamepad_data [b0, b1, b2, b3, b4, b5, b6, b7, b8, b9, b10, b11, b12, b13, b14, b15]
    = .ok { sequence := be32 b0 b1 b2 b3
            timestamp_ms := be32 b4 b5 b6 b7
            throttle := pyRound3 ((toSigned16 (be16 b8 b9) : ℚ) / 32767)
            steering := pyRound3 ((toSigned16 (be16 b10 b11) : ℚ) / 32767)
            buttons := buttonList (be16 b12 b13)
            flags := b14
            reserved := b15 } := rfl

/-! Claim theorems. -/

/-- C3: for every byte sequence whose length is not 16, decode returns
the bad-length decode error and never a frame, and feeding that result
to the control pipeline leaves the vehicle (safety and actuator) state
unchanged and emits no hardware command. -/
theorem bad_length_frame_dropped (data : List Byte) (vs : VehicleState)
    (h : data.length ≠ 16) :
    parse_gamepad_data data = .error (.badLength data.length) ∧
    apply_control vs (parse_gamepad_data data) = (vs, []) := by
  have h1 : parse_gamepad_data data = .error (.badLength data.length) := by
    simp [parse_gamepad_data, h]
  exact ⟨h1, by rw [h1]; rfl⟩


/-- Witness for C3 at the concrete 3-byte input `[0, 1, 2]`. -/
theorem bad_length_frame_dropped_witness :
    ([0, 1, 2] : List Byte).length ≠ 16 ∧
    (parse_gamepad_data [0, 1, 2] = .error (.badLength 3) ∧
     apply_control vehicleInit (parse_gamepad_data [0, 1, 2]) = (vehicleInit, [])) :=
  ⟨by decide, bad_length_frame_dropped [0, 1, 2] vehicleInit (by decide)⟩

/-- C9 (implicit): for every input of exactly 16 bytes, decoding always
succeeds with a frame — the parse-failure branch is unreachable at
length 16, so a bad length is the only decode error the decoder can
return. -/
theorem decode_total_on_16 (data : List Byte) (h : data.length = 16) :
    ∃ frame, parse_gamepad_data data = .ok frame := by
  rcases data with _ | ⟨b0, data⟩; · simp at h
  rcases data with _ | ⟨b1, data⟩; · simp at h
  rcases data with _ | ⟨b2, data⟩; · simp at h
  rcases data with _ | ⟨b3, data⟩; · simp at h
  rcases data with _ | ⟨b4, data⟩; · simp at h
  rcases data with _ | ⟨b5, data⟩; · simp at h
  rcases data with _ | ⟨b6, data⟩; · simp at h
  rcases data with _ | ⟨b7, data⟩; · simp at h
  rcases data with _ | ⟨b8, data⟩; · simp at h
  rcases data with _ | ⟨b9, data⟩; · simp at h
  rcases data with _ | ⟨b10, data⟩; · simp at h
  rcases data with _ | ⟨b11, data⟩; · simp at h
  rcases data with _ | ⟨b12, data⟩; · simp at h
  rcases data with _ | ⟨b13, data⟩; · simp at h
  rcases data with _ | ⟨b14, data⟩; · simp at h
  rcases data with _ | ⟨b15, data⟩; · simp at h
  rcases data with _ | ⟨b16, data⟩
  · exact ⟨_, parse_cons16 b0 b1 b2 b3 b4 b5 b6 b7 b8 b9 b10 b11 b12 b13 b14 b15⟩
  · simp at h

/-- Witness for C9 at the all-zero 16-byte input. -/
theorem decode_total_on_16_witness :
    (List.replicate 16 (0 : Byte)).length = 16 ∧
    ∃ frame, parse_gamepad_data (List.replicate 16 (0 : Byte)) = .ok frame :=
  ⟨by decide, decode_total_on_16 (List.replicate 16 0) (by decide)⟩

/-- C4 counterexample: for the 16-byte input whose big-endian throttle
field (offsets 8 and 9) holds the raw value 1, the decoded throttle is
0, not 1/32767 — the decoder rounds to three decimal places, so the
claimed exact equality `throttle = throttle_raw / 32767.0` fails. -/
theorem decode_throttle_not_exact :
    ∃ f, parse_gamepad_data [0, 0, 0, 0, 0, 0, 0, 0, 0, 1, 0, 0, 0, 0, 0, 0] = .ok f ∧
      f.throttle = 0 ∧ (0 : ℚ) ≠ 1 / 32767 := by
  refine ⟨_, parse_cons16 0 0 0 0 0 0 0 0 0 1 0 0 0 0 0 0, ?_, by norm_num⟩
  norm_num [toSigned16, be16, pyRound3, ratFloor]

/-- C4 (amended): for every 16-byte input, decoding succeeds and the
frame's throttle equals `throttle_raw / 32767` rounded to three decimal
places, and its steering equals `steering_raw / 32767` rounded to three
decimal places, where the raw values are the big-endian signed 16-bit
fields at byte offsets 8 and 10. -/
theorem decode_normalizes_rounded
    (b0 b1 b2 b3 b4 b5 b6 b7 b8 b9 b10 b11 b12 b13 b14 b15 : Byte) :
    ∃ f, parse_gamepad_data
        [b0, b1, b2, b3, b4, b5, b6, b7, b8, b9, b10, b11, b12, b13, b14, b15] = .ok f ∧
      f.throttle = pyRound3 ((toSigned16 (be16 b8 b9) : ℚ) / 32767) ∧
      f.steering = pyRound3 ((toSigned16 (be16 b10 b11) : ℚ) / 32767) :=
  ⟨_, parse_cons16 b0 b1 b2 b3 b4 b5 b6 b7 b8 b9 b10 b11 b12 b13 b14 b15, rfl, rfl⟩

/-- The steering mapping as the spec words it: inside the deadzone
return 90 degrees; otherwise invert the sign of the value, map the
result linearly from [-1, 1] onto [0%, 100%], rescale that percentage
linearly into the safe sub-range (10% to 90% of full travel), convert
to a 0-180 degree integer (180 degrees / 100%), and clamp. -/
def map_steering_spec (v : ℚ) : ℤ :=
  if |v| < 5/100 then 90
  else
    let inverted := -v
    let percent : ℚ := (inverted + 1) / 2 * 100
    let safe_percent : ℚ := SERVO_SAFE_MIN_PERCENT +
      (percent / 100) * (SERVO_SAFE_MAX_PERCENT - SERVO_SAFE_MIN_PERCENT)
    let angle := pyTrunc (safe_percent * (180 / 100))
    max 0 (min 180 angle)

/-- C5: for every steering value the code's mapper agrees with the
spec's description — 90 degrees inside the `|v| < 0.05` deadzone, and
otherwise the sign-inverted linear percentage rescaled into the
10%-90% safe range, converted to degrees and clamped to [0, 180]. -/
theorem steering_matches_spec (v : ℚ) :
    map_steering_to_angle v = map_steering_spec v := by
  simp only [map_steering_to_angle, map_steering_spec]
  split
  · rfl
  · have harg : (SERVO_SAFE_MIN_PERCENT +
        ((1 - v) * 50 / 100) * (SERVO_SAFE_MAX_PERCENT - SERVO_SAFE_MIN_PERCENT)) * (18/10)
      = (SERVO_SAFE_MIN_PERCENT +
        ((-v + 1) / 2 * 100 / 100) * (SERVO_SAFE_MAX_PERCENT - SERVO_SAFE_MIN_PERCENT)) * (180/100) := by
      ring
    rw [harg]

/-- C6: `stop()` is idempotent — from any controller state, calling
`stop` twice yields the identical neutral-throttle and center-steering
command list both times, and the second call leaves the state of the
first call unchanged. -/
theorem stop_idempotent (vs : VehicleState) :
    (vehicle_stop vs).2
      = [HwCommand.setThrottlePulse NEUTRAL, HwCommand.setSteeringAngle 90] ∧
    vehicle_stop ((vehicle_stop vs).1)
      = ((vehicle_stop vs).1,
         [HwCommand.setThrottlePulse NEUTRAL, HwCommand.setSteeringAngle 90]) :=
  ⟨rfl, rfl⟩

/-- C1: for every controller state and every frame, if after processing
the frame's button bits the emergency brake is held (bit 1 in the
button set) or the deadman is not held (bit 0 absent), then the
throttle pulse the mapper emits for this frame is the neutral 1500 us,
regardless of the frame's throttle value. -/
theorem throttle_neutral_under_interlock (vs : VehicleState) (frame : ControlFrame)
    (h : frame.buttons.contains 1 = true ∨ frame.buttons.contains 0 = false) :
    ∃ pre, (apply_control vs (.ok frame)).2
      = pre ++ [HwCommand.setThrottlePulse NEUTRAL,
                HwCommand.setSteeringAngle (map_steering_to_angle frame.steering)] := by
  refine ⟨(update_throttle_lock vs.throttle (frame.buttons.contains 0)).2 ++
    (update_emergency_brake (update_throttle_lock vs.throttle (frame.buttons.contains 0)).1
      (frame.buttons.contains 1)).2, ?_⟩
  have hmap : ∀ t3 : ThrottleState,
      t3.emergency_brake = frame.buttons.contains 1 →
      t3.throttle_lock = frame.buttons.contains 0 →
      map_throttle_to_pulse t3 frame.throttle = NEUTRAL := by
    intro t3 hb hl
    rcases h with h | h
    · exact map_throttle_neutral _ (Or.inl (hb.trans h))
    · exact map_throttle_neutral _ (Or.inr (hl.trans h))
  simp only [apply_control, apply_throttle, apply_steering, update_throttle,
    update_steering, List.append_assoc, List.cons_append, List.nil_append]
  congr 2
  split
  · rw [hmap]
    · simp
    · simp
  · rw [hmap]
    · simp
    · simp

/-- Witness for C1: a frame with only the emergency-brake button (bit 1)
held and full throttle 1.0 (the decoding of `throttle_raw = 32767`)
still maps to the neutral pulse. -/
theorem throttle_neutral_under_interlock_witness :
    (([1] : List Nat).contains 1 = true ∨ ([1] : List Nat).contains 0 = false) ∧
    ∃ pre, (apply_control vehicleInit
        (.ok { sequence := 0, timestamp_ms := 0, throttle := 1, steering := 0,
               buttons := [1], flags := 0, reserved := 0 })).2
      = pre ++ [HwCommand.setThrottlePulse NEUTRAL,
                HwCommand.setSteeringAngle (map_steering_to_angle 0)] :=
  ⟨Or.inl (by decide),
   throttle_neutral_under_interlock vehicleInit
     { sequence := 0, timestamp_ms := 0, throttle := 1, steering := 0,
       buttons := [1], flags := 0, reserved := 0 } (Or.inl (by decide))⟩

/-- The 16-byte frame of the C2 scenario: `throttle_raw = 16000`,
`steering_raw = 0`, `buttons = {0}`, `flags = 0`. -/
def c2bytes : List Byte :=
  [0, 0, 0, 0, 0, 0, 0, 0, 0x3E, 0x80, 0, 0, 0, 0x01, 0, 0]

/-- The decoding of `c2bytes`: `16000/32767` rounds to `0.488`. -/
def c2frame : ControlFrame :=
  { sequence := 0, timestamp_ms := 0, throttle := 61/125, steering := 0,
    buttons := [0], flags := 0, reserved := 0 }

/-- Controller state after applying `c2frame` from the fresh state. -/
def c2state : VehicleState :=
  ⟨{ current_throttle := 61/125, throttle_lock := true, emergency_brake := false,
     power_lock_enabled := true, power_lock_percent := 25 },
   { current_steering := 0 }⟩

/-- Commands emitted for `c2frame`: reverse-band pulse 1421, center 90. -/
def c2cmds : List HwCommand :=
  [HwCommand.setThrottlePulse 1421, HwCommand.setSteeringAngle 90]

lemma c2_parse : parse_gamepad_data c2bytes = .ok c2frame := by
  norm_num [c2bytes, c2frame, parse_gamepad_data, unpack16, be32, be16, toSigned16,
    pyRound3, ratFloor, buttonList, List.filter, Nat.testBit_to_div_mod]

set_option maxHeartbeats 1000000 in
lemma c2_first_frame : apply_control vehicleInit (.ok c2frame) = (c2state, c2cmds) := by
  norm_num [c2frame, c2state, c2cmds, apply_control, vehicleInit,
    throttleInit, steeringInit, update_throttle_lock, update_emergency_brake,
    update_power_lock, update_throttle, update_steering, apply_throttle,
    apply_steering, map_throttle_to_pulse, map_steering_to_angle, pyTrunc,
    ratFloor, stop_vehicle, NEUTRAL, DB_LOW, DB_HIGH, MIN_US, MAX_US,
    SERVO_SAFE_MIN_PERCENT, SERVO_SAFE_MAX_PERCENT,
    abs_of_nonneg, abs_of_nonpos]

set_option maxHeartbeats 1000000 in
lemma c2_second_frame : apply_control c2state (.ok c2frame) = (c2state, c2cmds) := by
  norm_num [c2frame, c2state, c2cmds, apply_control,
    update_throttle_lock, update_emergency_brake,
    update_power_lock, update_throttle, update_steering, apply_throttle,
    apply_steering, map_throttle_to_pulse, map_steering_to_angle, pyTrunc,
    ratFloor, stop_vehicle, NEUTRAL, DB_LOW, DB_HIGH, MIN_US, MAX_US,
    SERVO_SAFE_MIN_PERCENT, SERVO_SAFE_MAX_PERCENT,
    abs_of_nonneg, abs_of_nonpos]

/-- C2 counterexample: with a fresh safety state, the very first
processing of the scenario frame `{throttle_raw=16000, steering_raw=0,
buttons={0}, flags=0}` already emits throttle pulse 1421 — not the
neutral 1500 the claim demands for the first frame — because
`apply_control` records the deadman bit before mapping the throttle,
and a positive normalized throttle maps into the reverse band. -/
theorem first_frame_already_drives :
    (apply_control vehicleInit (parse_gamepad_data c2bytes)).2
      = [HwCommand.setThrottlePulse 1421, HwCommand.setSteeringAngle 90] ∧
    (1421 : ℤ) ≠ NEUTRAL := by
  rw [c2_parse, c2_first_frame]
  exact ⟨rfl, by norm_num [NEUTRAL]⟩

/-- C2 (amended): with a fresh safety state, processing the scenario
frame yields steering 0.0 (center, 90 degrees) and — because the
deadman bit is recorded before the throttle is mapped — motion is
already authorized on the first frame, producing pulse 1421; afterwards
`deadman_held = true`. A second identical frame produces the identical
output and leaves the state fixed. The pulse lies strictly inside the
reverse band `[MIN_US, deadband_low - 5]` (this system decodes a
positive normalized throttle as reverse), not in
`(deadband_high + 5, MAX_US)`. -/
theorem two_frame_scenario_actual :
    (apply_control vehicleInit (parse_gamepad_data c2bytes)
        = (c2state, [HwCommand.setThrottlePulse 1421, HwCommand.setSteeringAngle 90])) ∧
    c2state.throttle.throttle_lock = true ∧
    (apply_control c2state (parse_gamepad_data c2bytes)
        = (c2state, [HwCommand.setThrottlePulse 1421, HwCommand.setSteeringAngle 90])) ∧
    (MIN_US < 1421 ∧ (1421 : ℤ) < DB_LOW - 5) := by
  rw [c2_parse]
  exact ⟨c2_first_frame, rfl, c2_second_frame, by norm_num [MIN_US, DB_LOW]⟩

/-- A listener state with a live, connected peer session. -/
def c7state : ListenerState :=
  { connected := true, pc := some ⟨"controller-1", false⟩,
    data_channel := some "gamepad", pending_ice := [⟨"candidate:0", "0", 0⟩],
    controller_id := some "controller-1" }

/-- C7 counterexample: when the signaling transport disconnects while a
peer session is live, the handler closes and drops the session, clears
the pending ICE queue and marks the manager disconnected — but no
`stop()` effect (neutral throttle / centered steering) is observed
anywhere in its effects, contradicting the claim. -/
theorem disconnect_emits_no_stop :
    (on_disconnect c7state).2 = [ListenerEffect.closePeer "controller-1"] ∧
    ListenerEffect.stopVehicle ∉ (on_disconnect c7state).2 ∧
    (on_disconnect c7state).1.connected = false := by
  refine ⟨rfl, ?_, rfl⟩
  simp [on_disconnect, c7state]

/-- C7 (amended): when the signaling transport disconnects while a peer
session is live, the session is closed and destroyed, its pending ICE
queue is cleared and the manager is marked disconnected — but no
`stop()` effect is issued before reconnection: the listener performs no
actuation at all on disconnect. -/
theorem disconnect_closes_and_clears (s : ListenerState) (p : PeerConnection) :
    on_disconnect { s with pc := some p }
      = ({ connected := false, pc := none, data_channel := none,
           pending_ice := [], controller_id := s.controller_id },
         [ListenerEffect.closePeer p.peer_id]) ∧
    ListenerEffect.stopVehicle ∉ (on_disconnect { s with pc := some p }).2 := by
  refine ⟨rfl, ?_⟩
  simp [on_disconnect]

/-- A listener state holding a live session for a previous controller. -/
def c8state : ListenerState :=
  { connected := true, pc := some ⟨"old-controller", false⟩,
    data_channel := some "gamepad", pending_ice := [],
    controller_id := some "old-controller" }

/-- C8 counterexample: when a new offer arrives while a session for
"old-controller" exists (and is not closed), the handler's effects
contain no close of the old session — its teardown is never invoked
before the replacement, contradicting the claim. -/
theorem offer_without_teardown :
    c8state.pc = some ⟨"old-controller", false⟩ ∧
    (handle_gamepad_offer c8state "new-controller").2
      = [ListenerEffect.emitAnswer "new-controller"] ∧
    ListenerEffect.closePeer "old-controller"
      ∉ (handle_gamepad_offer c8state "new-controller").2 := by
  refine ⟨rfl, rfl, ?_⟩
  simp [handle_gamepad_offer, c8state]

/-- C8 (amended): when a remote offer arrives, the new session replaces
the stored reference and only the most recent offer's controller is
honored afterwards — but the previous session's teardown is not
invoked: no close effect is ever emitted by the offer handler, so a
superseded connection is simply dropped unclosed. -/
theorem offer_replaces_without_close (s : ListenerState) (from_user : String) :
    (handle_gamepad_offer s from_user).1.pc = some ⟨from_user, false⟩ ∧
    (handle_gamepad_offer s from_user).1.controller_id = some from_user ∧
    ∀ x, ListenerEffect.closePeer x ∉ (handle_gamepad_offer s from_user).2 := by
  refine ⟨rfl, rfl, ?_⟩
  intro x
  simp [handle_gamepad_offer]

/-- C10 (implicit): for every throttle input and every safety state the
throttle mapper's pulse lies within the hardware range
`[MIN_US, MAX_US] = [1000, 2000]` microseconds, and for every steering
input the steering mapper's angle lies within 0-180 degrees. -/
theorem actuator_commands_bounded (s : ThrottleState) (v w : ℚ) :
    (MIN_US ≤ map_throttle_to_pulse s v ∧ map_throttle_to_pulse s v ≤ MAX_US) ∧
    (0 ≤ map_steering_to_angle w ∧ map_steering_to_angle w ≤ 180) := by
  constructor
  · simp only [map_throttle_to_pulse]
    split
    · norm_num [MIN_US, NEUTRAL, MAX_US]
    · generalize (if s.power_lock_enabled = true then v * (s.power_lock_percent / 100) else v) = tv
      split
      · norm_num [MIN_US, NEUTRAL, MAX_US]
      · split
        · have hpct0 : (0 : ℚ) ≤ min 1 |tv| := le_min (by norm_num) (abs_nonneg tv)
          have hpct1 : min 1 |tv| ≤ 1 := min_le_left 1 |tv|
          have hb := pyTrunc_bounds (q := ((DB_HIGH : ℚ) + 5)
              + ((MAX_US : ℚ) - ((DB_HIGH : ℚ) + 5)) * min 1 |tv|)
            (a := DB_HIGH + 5) (b := MAX_US)
            (by norm_num [DB_HIGH]) (by push_cast [DB_HIGH, MAX_US]; nlinarith)
            (by push_cast [DB_HIGH, MAX_US]; nlinarith)
          constructor
          · calc MIN_US ≤ DB_HIGH + 5 := by norm_num [MIN_US, DB_HIGH]
              _ ≤ _ := hb.1
          · exact hb.2
        · have htv0 : (0 : ℚ) ≤ tv := not_lt.mp (by assumption)
          have hpct0 : (0 : ℚ) ≤ min 1 tv := le_min (by norm_num) htv0
          have hpct1 : min 1 tv ≤ 1 := min_le_left 1 tv
          have hb := pyTrunc_bounds (q := ((DB_LOW : ℚ) - 5)
              - (((DB_LOW : ℚ) - 5) - (MIN_US : ℚ)) * min 1 tv)
            (a := MIN_US) (b := DB_LOW - 5)
            (by norm_num [MIN_US]) (by push_cast [MIN_US, DB_LOW]; nlinarith)
            (by push_cast [MIN_US, DB_LOW]; nlinarith)
          refine ⟨hb.1, ?_⟩
          calc pyTrunc _ ≤ DB_LOW - 5 := hb.2
            _ ≤ MAX_US := by norm_num [DB_LOW, MAX_US]
  · simp only [map_steering_to_angle]
    split
    · norm_num
    · exact ⟨le_max_left 0 _, max_le (by norm_num) (min_le_left 180 _)⟩

end RaspberryPiCar
